import Mathlib

/-!
Verification of the mdf_toolbox helper library (materials-data-facility/toolbox).

The library's functional surface is a flat set of helper functions over the
GMeta JSON envelope format used by Globus Search, plus a static index-name
lookup and login helpers that map service names to OAuth scopes.  The Python
package sources are not present in this snapshot (only the tutorial notebooks
documenting each function's inputs and outputs), so each helper is modelled
from the specification and the concrete behaviour documented in the
notebooks, then verified against the claimed properties.
-/

namespace MdfToolbox

/-- A JSON value, the data the helpers transform.  Objects are modelled as
association lists of key/value pairs, which preserves key order (Python
dicts preserve insertion order). -/
inductive Json where
  | null : Json
  | bool (b : Bool) : Json
  | num (n : Int) : Json
  | str (s : String) : Json
  | arr (elems : List Json) : Json
  | obj (fields : List (String × Json)) : Json

/-- Key lookup in a JSON object: `j["k"]` / `j.get("k")` in Python.
Returns `none` when the value is not an object or the key is absent. -/
def Json.get : Json → String → Option Json
  | .obj fields, k => fields.lookup k
  | _, _ => none

/-- The fixed GMeta schema version stamped on every envelope
(documented output of `format_gmeta` in the tutorial). -/
def gmetaVersion : String := "2016-11-09"

/-- Modelled from the spec: the Python source of `mdf_toolbox.format_gmeta`
is missing from this snapshot; the model follows section 3 of the spec and
the tutorial's documented outputs.  A plain mapping plus a required `acl`
and `identifier` becomes a `GMetaEntry` envelope; a list becomes a
`GMetaList` envelope wrapped in a `GIngest` envelope; a missing required
parameter is a local validation error; any other input is a type error. -/
def format_gmeta (data : Json) (acl : Option (List String)) (identifier : Option String) :
    Except String Json :=
  match data with
  | .obj _ =>
    match acl, identifier with
    | some a, some i =>
      .ok (.obj [("@datatype", .str "GMetaEntry"),
                 ("@version", .str gmetaVersion),
                 ("subject", .str i),
                 ("visible_to", .arr (a.map .str)),
                 ("content", data)])
    | _, _ => .error "acl and identifier are required when formatting a GMetaEntry"
  | .arr entries =>
    .ok (.obj [("@datatype", .str "GIngest"),
               ("@version", .str gmetaVersion),
               ("ingest_type", .str "GMetaList"),
               ("ingest_data", .obj [("@datatype", .str "GMetaList"),
                                     ("@version", .str gmetaVersion),
                                     ("gmeta", .arr entries)])])
  | _ => .error "cannot format this type into GMeta"

/-- The result of `gmeta_pop`: either the bare list of content payloads, or
(with `info=True`) that list paired with a query-metadata dictionary. -/
inductive PopResult where
  | results (rs : List Json) : PopResult
  | withInfo (rs : List Json) (meta : Json) : PopResult

/-- The content payloads of one `GMetaResult` entry: the entry's `content`
field, which must be present and hold a list (`for con in res["content"]`). -/
def popContent (entry : Json) : Except String (List Json) :=
  match entry.get "content" with
  | some (.arr cs) => .ok cs
  | some _ => .error "entry content is not a list"
  | none => .error "KeyError: content"

/-- Concatenate the content payloads of a list of `GMetaResult` entries in
order, failing on the first malformed entry. -/
def popAll : List Json → Except String (List Json)
  | [] => .ok []
  | entry :: rest =>
    match popContent entry, popAll rest with
    | .ok cs, .ok r => .ok (cs ++ r)
    | .error m, _ => .error m
    | _, .error m => .error m

/-- Modelled from the spec: the Python source of `mdf_toolbox.gmeta_pop` is
missing from this snapshot; the model follows the tutorial's documented
behaviour.  It unwraps a `GSearchResult` dictionary: every content payload
of every entry of the `gmeta` list is collected into one flat list and the
envelope fields are discarded; with `info` set, the result is paired with a
metadata dictionary holding `total_query_matches`, the result's `total`
field. -/
def gmeta_pop (gmeta : Json) (info : Bool) : Except String PopResult :=
  match gmeta.get "gmeta" with
  | some (.arr entries) =>
    match popAll entries with
    | .ok rs =>
      if info then
        .ok (.withInfo rs (.obj [("total_query_matches", (gmeta.get "total").getD .null)]))
      else
        .ok (.results rs)
    | .error m => .error m
  | some _ => .error "gmeta field is not a list"
  | none => .error "KeyError: gmeta"

/-- Modelled from the spec: the static index-name-to-UUID lookup table of
`mdf_toolbox.translate_index` (the Python source is missing from this
snapshot).  The tutorial documents the `mdf` entry. -/
def index_uuids : List (String × String) :=
  [("mdf", "1a57bbe5-5272-477f-9d31-343b8258b7a5"),
   ("mdf-test", "5acded0c-a534-45af-84be-dcf042e36412")]

/-- Modelled from the spec: `mdf_toolbox.translate_index` (source missing
from this snapshot) is a static dictionary lookup with identity fallback:
a known index name maps to its UUID string, any other input is returned
unchanged. -/
def translate_index (index_name : String) : String :=
  match index_uuids.lookup index_name with
  | some uuid => uuid
  | none => index_name

/-- Modelled from the spec: the static service-name-to-OAuth-scope mapping
used by the login helpers (the Python source is missing from this
snapshot).  The tutorial documents the `transfer`, `search` and
`mdf_connect` services. -/
def known_scopes : List (String × String) :=
  [("transfer", "urn:globus:auth:scope:transfer.api.globus.org:all"),
   ("search", "urn:globus:auth:scope:search.api.globus.org:search"),
   ("mdf_connect", "https://auth.globus.org/scopes/c17f27bb-f200-486a-b785-2a25e82af505/connect")]

/-- Scope lookup performed by the login helpers for one named service:
a plain dictionary access, so an unknown service name raises a lookup
error (`KeyError`) rather than returning a scope. -/
def lookup_scope (service : String) : Except String String :=
  match known_scopes.lookup service with
  | some scope => .ok scope
  | none => .error ("KeyError: " ++ service)

/-- The SDK client types associated with some services; a service absent
from this mapping has no client and yields an authorizer instead
(the tutorial documents `TransferClient` for `transfer` and no client for
`mdf_connect`). -/
def service_clients : List (String × String) :=
  [("transfer", "TransferClient"), ("search", "SearchClient")]

/-- A value of the dictionary returned by `login`: either a constructed SDK
client object (named by its type) or an authorizer object. -/
inductive LoginResult where
  | client (type_name : String) : LoginResult
  | authorizer : LoginResult

/-- The value `login` stores for one service: with client construction
enabled and an associated SDK client type, the client; otherwise an
authorizer. -/
def login_value (service : String) (make_clients : Bool) : LoginResult :=
  if make_clients then
    match service_clients.lookup service with
    | some c => .client c
    | none => .authorizer
  else
    .authorizer

/-- Modelled from the spec: `mdf_toolbox.login` (source missing from this
snapshot) looks up the scope string of each named service, invokes the
wrapped SDK's authorize flow, and returns a dictionary keyed by the
requested service names whose values are SDK clients where available (and
requested) and authorizers otherwise.  The authorize flow itself belongs to
the wrapped SDK and is not modelled; a failed scope lookup aborts the call. -/
def login : List String → Bool → Except String (List (String × LoginResult))
  | [], _ => .ok []
  | service :: rest, make_clients =>
    match lookup_scope service with
    | .error m => .error m
    | .ok _scope =>
      match login rest make_clients with
      | .error m => .error m
      | .ok r => .ok ((service, login_value service make_clients) :: r)

/-- The first content payload of the tutorial's sample search result. -/
def samplePayload1 : Json :=
  .obj [("foo", .str "bar"), ("baz", .arr [.num 1, .num 2, .num 3, .num 4, .num 5])]

/-- The second content payload of the tutorial's sample search result. -/
def samplePayload2 : Json :=
  .obj [("food", .str "bard"), ("bazd", .arr [.str "d"])]

/-- The sample `GSearchResult` from the tutorial notebook, used as a
concrete well-formed input. -/
def sampleResult : Json :=
  .obj [("@datatype", .str "GSearchResult"),
        ("@version", .str "2016-11-09"),
        ("count", .num 11),
        ("gmeta", .arr [.obj [("@datatype", .str "GMetaResult"),
                              ("@version", .str "2016-11-09"),
                              ("content", .arr [samplePayload1, samplePayload2]),
                              ("subject", .str "http://example.com/abc123")]]),
        ("offset", .num 0),
        ("total", .num 22)]

/-- Helper: `popAll` on entries whose `content` fields hold exactly the
lists `css` returns the flat concatenation of `css`, in order. -/
theorem popAll_forall2 (entries : List Json) (css : List (List Json))
    (h : List.Forall₂ (fun e cs => Json.get e "content" = some (.arr cs)) entries css) :
    popAll entries = .ok css.flatten := by
  induction h with
  | nil => rfl
  | cons h1 _ ih => simp [popAll, popContent, h1, ih]

/-- C2: for every plain mapping `d`, access-control list `acl` and
identifier `i`, `format_gmeta d acl i` returns a `GMetaEntry` envelope with
a fixed `@version`, subject `i`, access-control list `acl`, and `d`
unchanged as its content payload. -/
theorem format_gmeta_entry_spec (m : List (String × Json)) (acl : List String) (i : String) :
    ∃ e, format_gmeta (.obj m) (some acl) (some i) = .ok e ∧
      Json.get e "@datatype" = some (.str "GMetaEntry") ∧
      Json.get e "@version" = some (.str gmetaVersion) ∧
      Json.get e "subject" = some (.str i) ∧
      Json.get e "visible_to" = some (.arr (acl.map .str)) ∧
      Json.get e "content" = some (.obj m) := by
  exact ⟨_, rfl, rfl, rfl, rfl, rfl, rfl⟩

/-- C3: for every list of entries `es`, `format_gmeta es` wraps `es` in a
`GMetaList` envelope which is itself wrapped in a `GIngest` envelope with
versioning metadata and ingest_type `GMetaList`, with the entries of `es`
appearing unchanged and in order inside the inner envelope. -/
theorem format_gmeta_ingest_spec (es : List Json) :
    ∃ g gl, format_gmeta (.arr es) none none = .ok g ∧
      Json.get g "@datatype" = some (.str "GIngest") ∧
      Json.get g "@version" = some (.str gmetaVersion) ∧
      Json.get g "ingest_type" = some (.str "GMetaList") ∧
      Json.get g "ingest_data" = some gl ∧
      Json.get gl "@datatype" = some (.str "GMetaList") ∧
      Json.get gl "@version" = some (.str gmetaVersion) ∧
      Json.get gl "gmeta" = some (.arr es) := by
  exact ⟨_, _, rfl, rfl, rfl, rfl, rfl, rfl, rfl, rfl⟩

/-- C7: for every plain mapping passed to `format_gmeta` without the
required `acl` or `identifier` parameter, the call fails with a local
validation error instead of producing a `GMetaEntry`. -/
theorem format_gmeta_missing_param (m : List (String × Json)) (acl : Option (List String))
    (i : Option String) (h : acl = none ∨ i = none) :
    format_gmeta (.obj m) acl i =
      .error "acl and identifier are required when formatting a GMetaEntry" := by
  rcases h with h | h
  · subst h; cases i <;> rfl
  · subst h; cases acl <;> rfl

/-- Witness for C7 at the tutorial's sample data, with `acl` omitted. -/
theorem format_gmeta_missing_param_witness :
    format_gmeta (.obj [("foo", .str "bar")]) none (some "abc123") =
      .error "acl and identifier are required when formatting a GMetaEntry" :=
  format_gmeta_missing_param [("foo", .str "bar")] none (some "abc123") (Or.inl rfl)

/-- C4: `translate_index` returns the corresponding UUID string for every
index name in the static lookup table, and returns every other input
unchanged. -/
theorem translate_index_spec (s : String) :
    (index_uuids.lookup s = none → translate_index s = s) ∧
    ∀ u, index_uuids.lookup s = some u → translate_index s = u := by
  constructor
  · intro h; simp [translate_index, h]
  · intro u h; simp [translate_index, h]

/-- Witness for C4: an unknown name passes through unchanged, the known
name `mdf` maps to its UUID. -/
theorem translate_index_spec_witness :
    translate_index "not-an-index" = "not-an-index" ∧
    translate_index "mdf" = "1a57bbe5-5272-477f-9d31-343b8258b7a5" :=
  ⟨(translate_index_spec "not-an-index").1 (by rfl),
   (translate_index_spec "mdf").2 _ (by rfl)⟩

/-- C5: for every service name that is not a key of the static
service-to-scope mapping, the scope lookup fails with a simple lookup
error, and so does a login requesting that service. -/
theorem lookup_scope_unknown (s : String) (h : known_scopes.lookup s = none) :
    lookup_scope s = .error ("KeyError: " ++ s) ∧
    ∀ mc, login [s] mc = .error ("KeyError: " ++ s) := by
  have hs : lookup_scope s = .error ("KeyError: " ++ s) := by
    simp [lookup_scope, h]
  exact ⟨hs, fun mc => by simp [login, hs]⟩

/-- Witness for C5 at a service name absent from the mapping. -/
theorem lookup_scope_unknown_witness :
    lookup_scope "petrel" = .error ("KeyError: " ++ "petrel") ∧
    ∀ mc, login ["petrel"] mc = .error ("KeyError: " ++ "petrel") :=
  lookup_scope_unknown "petrel" (by rfl)

/-- C6: for every list of known service names, `login` returns a
dictionary keyed exactly by the requested services, in which a service with
an associated SDK client type gets that client when client construction is
enabled, a service with no associated client gets an authorizer, and with
`make_clients = false` every service gets an authorizer. -/
theorem login_spec (services : List String) (mc : Bool)
    (h : ∀ s ∈ services, (known_scopes.lookup s).isSome) :
    ∃ r, login services mc = .ok r ∧
      r.map Prod.fst = services ∧
      ∀ s lr, (s, lr) ∈ r →
        (mc = true → ∀ c, service_clients.lookup s = some c → lr = .client c) ∧
        (mc = true → service_clients.lookup s = none → lr = .authorizer) ∧
        (mc = false → lr = .authorizer) := by
  induction services with
  | nil => exact ⟨[], rfl, rfl, by intro s lr hmem; cases hmem⟩
  | cons s rest ih =>
    obtain ⟨scope, hscope⟩ := Option.isSome_iff_exists.mp (h s (List.mem_cons_self s rest))
    obtain ⟨r, hr, hkeys, hvals⟩ := ih (fun t ht => h t (List.mem_cons_of_mem s ht))
    refine ⟨(s, login_value s mc) :: r, ?_, ?_, ?_⟩
    · simp [login, lookup_scope, hscope, hr]
    · simp [hkeys]
    · intro t lr hmem
      rcases List.mem_cons.mp hmem with heq | htail
      · obtain ⟨ht, hlr⟩ := Prod.mk.injEq .. ▸ heq
        subst ht; subst hlr
        refine ⟨?_, ?_, ?_⟩
        · intro hmc c hc; simp [login_value, hmc, hc]
        · intro hmc hc; simp [login_value, hmc, hc]
        · intro hmc; simp [login_value, hmc]
      · exact hvals t lr htail

/-- Witness for C6: the tutorial's login request for `mdf_connect` and
`transfer` with client construction enabled. -/
theorem login_spec_witness :
    ∃ r, login ["mdf_connect", "transfer"] true = .ok r ∧
      r.map Prod.fst = ["mdf_connect", "transfer"] ∧
      ∀ s lr, (s, lr) ∈ r →
        (true = true → ∀ c, service_clients.lookup s = some c → lr = .client c) ∧
        (true = true → service_clients.lookup s = none → lr = .authorizer) ∧
        (true = false → lr = .authorizer) :=
  login_spec ["mdf_connect", "transfer"] true (by decide)

/-- C9: for every well-formed search result whose `gmeta` entries carry the
content-payload lists `css`, `gmeta_pop` returns the flat concatenation of
all payloads, preserving entry order and payload order and discarding the
envelope fields. -/
theorem gmeta_pop_flattens (x : Json) (entries : List Json) (css : List (List Json))
    (hg : Json.get x "gmeta" = some (.arr entries))
    (h : List.Forall₂ (fun e cs => Json.get e "content" = some (.arr cs)) entries css) :
    gmeta_pop x false = .ok (.results css.flatten) := by
  simp [gmeta_pop, hg, popAll_forall2 entries css h]

/-- Witness for C9 at the tutorial's sample search result. -/
theorem gmeta_pop_flattens_witness :
    gmeta_pop sampleResult false = .ok (.results [samplePayload1, samplePayload2]) :=
  gmeta_pop_flattens sampleResult _ [[samplePayload1, samplePayload2]] rfl
    (List.Forall₂.cons rfl List.Forall₂.nil)

/-- Helper: inversion of a successful plain `gmeta_pop` call — the input
held a `gmeta` list whose popped contents are the returned results. -/
theorem gmeta_pop_false_inv (x : Json) (rs : List Json)
    (h : gmeta_pop x false = .ok (.results rs)) :
    ∃ entries, Json.get x "gmeta" = some (.arr entries) ∧ popAll entries = .ok rs := by
  unfold gmeta_pop at h
  rcases hg : Json.get x "gmeta" with _ | j <;> rw [hg] at h
  · simp at h
  · cases j with
    | arr entries =>
      rcases hp : popAll entries with m | rs2
      · simp [hp] at h
      · simp [hp] at h
        exact ⟨entries, rfl, by rw [hp, h]⟩
    | null => simp at h
    | bool b => simp at h
    | num n => simp at h
    | str s => simp at h
    | obj fs => simp at h

/-- C10: for every well-formed search result `x`, `gmeta_pop x` with
`info=True` returns a pair of the plain `gmeta_pop x` results and a
metadata dictionary whose `total_query_matches` equals the `total` field of
`x`. -/
theorem gmeta_pop_info_spec (x : Json) (rs : List Json) (t : Json)
    (h : gmeta_pop x false = .ok (.results rs))
    (ht : Json.get x "total" = some t) :
    gmeta_pop x true = .ok (.withInfo rs (.obj [("total_query_matches", t)])) := by
  obtain ⟨entries, hg, hp⟩ := gmeta_pop_false_inv x rs h
  simp [gmeta_pop, hg, hp, ht]

/-- Witness for C10 at the tutorial's sample search result, whose `total`
field is 22. -/
theorem gmeta_pop_info_spec_witness :
    gmeta_pop sampleResult true =
      .ok (.withInfo [samplePayload1, samplePayload2]
        (.obj [("total_query_matches", .num 22)])) :=
  gmeta_pop_info_spec sampleResult [samplePayload1, samplePayload2] (.num 22) (by rfl) (by rfl)

/-- C1: round-trip — the content payloads recovered by `gmeta_pop` reappear
unchanged, and in order, as the content carried by the envelope that
`format_gmeta` builds from them. -/
theorem gmeta_roundtrip (x : Json) (rs : List Json)
    (h : gmeta_pop x false = .ok (.results rs)) :
    ∃ g gl, format_gmeta (.arr rs) none none = .ok g ∧
      Json.get g "ingest_data" = some gl ∧
      ∃ rs2, gmeta_pop x false = .ok (.results rs2) ∧
        Json.get gl "gmeta" = some (.arr rs2) := by
  exact ⟨_, _, rfl, rfl, rs, h, rfl⟩

/-- Witness for C1 at the tutorial's sample search result. -/
theorem gmeta_roundtrip_witness :
    ∃ g gl, format_gmeta (.arr [samplePayload1, samplePayload2]) none none = .ok g ∧
      Json.get g "ingest_data" = some gl ∧
      ∃ rs2, gmeta_pop sampleResult false = .ok (.results rs2) ∧
        Json.get gl "gmeta" = some (.arr rs2) :=
  gmeta_roundtrip sampleResult [samplePayload1, samplePayload2] (by rfl)

/-- C8: `format_gmeta`, `gmeta_pop` and `translate_index` are deterministic
functions of their arguments: two runs on equal inputs return equal
outputs.  (In this embedding they are pure functions, so they mutate
neither their inputs nor any library state by construction.) -/
theorem helpers_deterministic (d d' : Json) (a a' : Option (List String))
    (i i' : Option String) (x x' : Json) (b b' : Bool) (s s' : String)
    (hd : d = d') (ha : a = a') (hi : i = i') (hx : x = x') (hb : b = b') (hs : s = s') :
    format_gmeta d a i = format_gmeta d' a' i' ∧
    gmeta_pop x b = gmeta_pop x' b' ∧
    translate_index s = translate_index s' := by
  subst hd; subst ha; subst hi; subst hx; subst hb; subst hs
  exact ⟨rfl, rfl, rfl⟩

/-- Witness for C8 at the tutorial's sample inputs. -/
theorem helpers_deterministic_witness :
    format_gmeta (.obj [("foo", .str "bar")]) (some ["public"]) (some "abc123") =
      format_gmeta (.obj [("foo", .str "bar")]) (some ["public"]) (some "abc123") ∧
    gmeta_pop sampleResult false = gmeta_pop sampleResult false ∧
    translate_index "mdf" = translate_index "mdf" :=
  helpers_deterministic (.obj [("foo", .str "bar")]) (.obj [("foo", .str "bar")])
    (some ["public"]) (some ["public"]) (some "abc123") (some "abc123")
    sampleResult sampleResult false false "mdf" "mdf" rfl rfl rfl rfl rfl rfl

end MdfToolbox
